import Mathlib

/-!
A shallow embedding of the AppWrapper reconciliation controller
(`internal/controller/appwrapper/appwrapper_controller.go`), together with
theorems about its state machine, retry gate, grace-period resolution and
status aggregation.

Modelling conventions:
* Go `time.Duration` values (int64 nanoseconds) and `int32` counters are
  modelled as `Int`; the only place a Go integer conversion can wrap is the
  `int32(limit)` cast in `retryLimit`, modelled by `toInt32`.
* The store collaborators (the client's Get/List/Update/Delete and the
  component materializer `createComponents` / `deleteComponents`, which live
  outside this file in the repository) are abstracted as an `Env` of
  observation results, one reconcile invocation consuming one snapshot.
  Status writes (`r.Status().Update`) are modelled as succeeding.
* `time.ParseDuration` and `strconv.Atoi` are abstracted as parse functions
  `String → Option Int` passed as parameters (`pd` for durations, `pi` for
  integers); `none` models a parse error.
* The body of the Go `Reconcile` method is split into one Lean definition per
  `switch` arm (`reconcileDeletion`, `reconcileEmpty`, ..., `reconcileSucceeded`),
  dispatched by `reconcileLive`; `reconcile` adds the initial fetch handling.
-/

namespace AppWrapperModel

/-- The nine AppWrapper lifecycle phases (`AppWrapperPhase`); `empty` is the
unset initial phase (Go empty string). -/
inductive Phase
  | empty
  | suspended
  | resuming
  | running
  | suspending
  | resetting
  | failed
  | succeeded
  | terminating
  deriving DecidableEq, Repr

/-- The string value of each phase constant, used as a condition `Reason`. -/
def phaseName : Phase → String
  | Phase.empty => ""
  | Phase.suspended => "Suspended"
  | Phase.resuming => "Resuming"
  | Phase.running => "Running"
  | Phase.suspending => "Suspending"
  | Phase.resetting => "Resetting"
  | Phase.failed => "Failed"
  | Phase.succeeded => "Succeeded"
  | Phase.terminating => "Terminating"

/-- The workload-scope condition types (`AppWrapperCondition`). -/
inductive CondType
  | quotaReserved
  | resourcesDeployed
  | podsReady
  | unhealthy
  | deletingResources
  deriving DecidableEq, Repr

/-- One `metav1.Condition`: type, boolean status, reason, message and
last-transition time (an instant, in the same units as `Env.now`). -/
structure Cond where
  type : CondType
  status : Bool
  reason : String
  message : String
  lastTransitionTime : Int
  deriving DecidableEq, Repr

/-- `meta.FindStatusCondition`: the first condition of the given type. -/
def findCond : List Cond → CondType → Option Cond
  | [], _ => none
  | c :: rest, t => if c.type = t then some c else findCond rest t

/-- `meta.IsStatusConditionTrue`. -/
def isCondTrue (conds : List Cond) (t : CondType) : Bool :=
  match findCond conds t with
  | some c => c.status
  | none => false

/-- The `LastTransitionTime` the Go code reads off `FindStatusCondition`
(the Go code dereferences the pointer; every call site has just set the
condition, so we default the impossible absent case to 0). -/
def lastTransition (conds : List Cond) (t : CondType) : Int :=
  match findCond conds t with
  | some c => c.lastTransitionTime
  | none => 0

/-- `meta.SetStatusCondition`: update the first condition of the given type
(reason and message always; `lastTransitionTime` only when the boolean status
changes), or append a fresh one stamped `now`. -/
def setCond : List Cond → CondType → Bool → String → String → Int → List Cond
  | [], t, st, r, m, now => [⟨t, st, r, m, now⟩]
  | c :: rest, t, st, r, m, now =>
    if c.type = t then
      ⟨c.type, st, r, m, if c.status = st then c.lastTransitionTime else now⟩ :: rest
    else
      c :: setCond rest t st r m now

/-- Pod phases (`v1.PodPhase`). -/
inductive PodPhase
  | pending
  | running
  | succeeded
  | failed
  | unknown
  deriving DecidableEq, Repr

/-- `podStatusSummary`. -/
structure PodStatusSummary where
  expected : Int
  pending : Int
  running : Int
  succeeded : Int
  failed : Int
  deriving DecidableEq, Repr

/-- `componentStatusSummary`. -/
structure ComponentStatusSummary where
  expected : Int
  deployed : Int
  deriving DecidableEq, Repr

/-- One `status.componentStatus` record: child identity plus its own
condition set. -/
structure ComponentStatus where
  kind : String
  apiVersion : String
  name : String
  conditions : List Cond
  deriving DecidableEq, Repr

/-- The AppWrapper resource as the reconciler reads it: the suspend flag and
annotations from the spec/metadata, the deletion marker and finalizer list,
and the status sub-document (phase, conditions, componentStatus, retries).
`componentCount` is the number of declared `spec.components`. -/
structure AppWrapper where
  suspend : Bool
  anns : List (String × String)
  deletionTimestampSet : Bool
  finalizers : List String
  phase : Phase
  conditions : List Cond
  componentStatus : List ComponentStatus
  retries : Int
  componentCount : Nat
  deriving DecidableEq, Repr

/-- Store error kinds distinguishable by the reconciler (`apierrors`):
`notFound` vs. everything transient (conflict, unavailability). -/
inductive StoreErr
  | notFound
  | transient
  deriving DecidableEq, Repr

/-- Outcome of the component materializer `createComponents`:
`err` carries the Go `fatal` flag and the error text. -/
inductive CreateOutcome
  | ok
  | err (fatal : Bool) (msg : String)
  deriving DecidableEq, Repr

/-- One reconciliation's observations of the outside world: the wall clock,
the pod list for the workload's label, the expected pod count (collaborator
`utils.ExpectedPodCount`), the per-component Get results, whether
`deleteComponents` reports all children gone, and the `createComponents`
outcome. -/
structure Env where
  now : Int
  podList : Except StoreErr (List PodPhase)
  expectedPodCount : Int
  componentFetch : Nat → Except StoreErr Unit
  allComponentsGone : Bool
  createOutcome : CreateOutcome

/-- What a reconcile invocation returns to the dispatcher:
`done` is `ctrl.Result{}, nil`; `requeueAfter d` is
`ctrl.Result{RequeueAfter: d}, nil`; `error e` is `ctrl.Result{}, err`. -/
inductive ReconcileResult
  | done
  | requeueAfter (d : Int)
  | error (e : StoreErr)
  deriving DecidableEq, Repr

/-- One nanosecond-scale second, `time.Second`. -/
def second : Int := 1000000000

/-- `5 * time.Second`. -/
def fiveSeconds : Int := 5 * second

/-- `time.Minute`. -/
def minute : Int := 60 * second

/-- `AppWrapperFinalizer`. -/
def appWrapperFinalizer : String := "workload.codeflare.dev/finalizer"

/-- `controllerutil.ContainsFinalizer`. -/
def containsFinalizer (aw : AppWrapper) : Bool :=
  decide (appWrapperFinalizer ∈ aw.finalizers)

/-- `controllerutil.RemoveFinalizer`: drop every occurrence. -/
def removeFinalizer (l : List String) : List String :=
  l.filter (fun f => decide (f ≠ appWrapperFinalizer))

/-- `config.FaultTolerance`: the configured defaults pertaining to this
controller (durations as Int nanoseconds). -/
structure FaultToleranceConfig where
  admissionGracePeriod : Int
  warmupGracePeriod : Int
  failureGracePeriod : Int
  retryPausePeriod : Int
  forcefulDeletionGracePeriod : Int
  successTTL : Int
  gracePeriodMaximum : Int
  retryLimit : Int
  deriving DecidableEq, Repr

/-- Modelled from the spec: annotation key for the admission grace period
override. The key constants live in the API package `api/v1beta2`, which is
not among the provided sources; the literal values are nominal and matter
only as lookup keys (spec section 4.2 and 6). -/
def admissionGracePeriodKey : String := "workload.codeflare.dev.admissionGracePeriodDuration"

/-- Modelled from the spec: annotation key for the warmup grace period override. -/
def warmupGracePeriodKey : String := "workload.codeflare.dev.warmupGracePeriodDuration"

/-- Modelled from the spec: annotation key for the failure grace period override. -/
def failureGracePeriodKey : String := "workload.codeflare.dev.failureGracePeriodDuration"

/-- Modelled from the spec: annotation key for the retry pause override. -/
def retryPausePeriodKey : String := "workload.codeflare.dev.retryPausePeriodDuration"

/-- Modelled from the spec: annotation key for the forceful deletion grace
period override. -/
def forcefulDeletionKey : String := "workload.codeflare.dev.forcefulDeletionGracePeriodDuration"

/-- Modelled from the spec: annotation key for the deletion-on-failure grace
period override (`DeletionOnFailureGracePeriodAnnotation`). -/
def deletionOnFailureKey : String := "workload.codeflare.dev.deletionOnFailureGracePeriodDuration"

/-- Modelled from the spec: annotation key for the success TTL override. -/
def successTTLKey : String := "workload.codeflare.dev.successTTLDuration"

/-- Modelled from the spec: annotation key for the retry limit override. -/
def retryLimitKey : String := "workload.codeflare.dev.retryLimit"

/-- Lookup of a metadata annotation by key (first match). -/
def lookupAnn : List (String × String) → String → Option String
  | [], _ => none
  | (k, v) :: rest, key => if k = key then some v else lookupAnn rest key

/-- Go's `int32(limit)` conversion (two's-complement truncation). -/
def toInt32 (n : Int) : Int := (n + 2 ^ 31) % 2 ^ 32 - 2 ^ 31

/-- `limitDuration`: clamp a desired duration into
`[0, cfg.gracePeriodMaximum]`. -/
def limitDuration (cfg : FaultToleranceConfig) (desired : Int) : Int :=
  if desired < 0 then 0
  else if desired > cfg.gracePeriodMaximum then cfg.gracePeriodMaximum
  else desired

/-- The shared shape of the five uniform duration resolvers
(`admissionGraceDuration`, `warmupGraceDuration`, `failureGraceDuration`,
`retryPauseDuration`, `forcefulDeletionGraceDuration`): a present and
parseable override is clamped; otherwise the configured default is clamped. -/
def resolveGraceDuration (cfg : FaultToleranceConfig) (pd : String → Option Int)
    (aw : AppWrapper) (key : String) (dflt : Int) : Int :=
  match lookupAnn aw.anns key with
  | some userPeriod =>
    match pd userPeriod with
    | some duration => limitDuration cfg duration
    | none => limitDuration cfg dflt
  | none => limitDuration cfg dflt

/-- `admissionGraceDuration`. -/
def admissionGraceDuration (cfg : FaultToleranceConfig) (pd : String → Option Int)
    (aw : AppWrapper) : Int :=
  resolveGraceDuration cfg pd aw admissionGracePeriodKey cfg.admissionGracePeriod

/-- `warmupGraceDuration`. -/
def warmupGraceDuration (cfg : FaultToleranceConfig) (pd : String → Option Int)
    (aw : AppWrapper) : Int :=
  resolveGraceDuration cfg pd aw warmupGracePeriodKey cfg.warmupGracePeriod

/-- `failureGraceDuration`. -/
def failureGraceDuration (cfg : FaultToleranceConfig) (pd : String → Option Int)
    (aw : AppWrapper) : Int :=
  resolveGraceDuration cfg pd aw failureGracePeriodKey cfg.failureGracePeriod

/-- `retryPauseDuration`. -/
def retryPauseDuration (cfg : FaultToleranceConfig) (pd : String → Option Int)
    (aw : AppWrapper) : Int :=
  resolveGraceDuration cfg pd aw retryPausePeriodKey cfg.retryPausePeriod

/-- `forcefulDeletionGraceDuration`. -/
def forcefulDeletionGraceDuration (cfg : FaultToleranceConfig) (pd : String → Option Int)
    (aw : AppWrapper) : Int :=
  resolveGraceDuration cfg pd aw forcefulDeletionKey cfg.forcefulDeletionGracePeriod

/-- `deletionOnFailureGraceDuration`: a parseable override is clamped; an
absent or unparsable override yields `0 * time.Second` ("using default of 0"
in the Go log message) — there is no configured default for this duration. -/
def deletionOnFailureGraceDuration (cfg : FaultToleranceConfig) (pd : String → Option Int)
    (aw : AppWrapper) : Int :=
  match lookupAnn aw.anns deletionOnFailureKey with
  | some userPeriod =>
    match pd userPeriod with
    | some duration => limitDuration cfg duration
    | none => 0
  | none => 0

/-- `timeToLiveAfterSucceededDuration`: a parseable override is honored only
when strictly between 0 and the configured default; otherwise (and for absent
or unparsable overrides) the configured default is returned, unclamped. -/
def timeToLiveAfterSucceededDuration (cfg : FaultToleranceConfig) (pd : String → Option Int)
    (aw : AppWrapper) : Int :=
  match lookupAnn aw.anns successTTLKey with
  | some userPeriod =>
    match pd userPeriod with
    | some duration =>
      if 0 < duration ∧ duration < cfg.successTTL then duration else cfg.successTTL
    | none => cfg.successTTL
  | none => cfg.successTTL

/-- `retryLimit`: a parseable override is converted through `int32(...)`;
absent or unparsable overrides yield the configured limit. -/
def retryLimit (cfg : FaultToleranceConfig) (pi : String → Option Int)
    (aw : AppWrapper) : Int :=
  match lookupAnn aw.anns retryLimitKey with
  | some userLimit =>
    match pi userLimit with
    | some limit => toInt32 limit
    | none => cfg.retryLimit
  | none => cfg.retryLimit

/-- The ubiquitous call shape
`meta.SetStatusCondition(&aw.Status.Conditions, metav1.Condition{...})`
applied to the workload's own condition list. -/
def withCond (aw : AppWrapper) (t : CondType) (st : Bool) (reason msg : String)
    (now : Int) : AppWrapper :=
  { aw with conditions := setCond aw.conditions t st reason msg now }

/-- `clearCondition`: set the condition to false (with the given reason and
message) only when it is currently true. -/
def clearCondition (aw : AppWrapper) (t : CondType) (reason msg : String) (now : Int) :
    AppWrapper :=
  if isCondTrue aw.conditions t then
    { aw with conditions := setCond aw.conditions t false reason msg now }
  else aw

/-- `updateStatus`: commit the new phase (the status write is modelled as
succeeding). -/
def updateStatus (aw : AppWrapper) (p : Phase) : AppWrapper × ReconcileResult :=
  ({ aw with phase := p }, ReconcileResult.done)

/-- `resetOrFail`: the single bounded-retry gate. -/
def resetOrFail (cfg : FaultToleranceConfig) (pi : String → Option Int)
    (aw : AppWrapper) : AppWrapper × ReconcileResult :=
  let maxRetries := retryLimit cfg pi aw
  if aw.retries < maxRetries then
    updateStatus { aw with retries := aw.retries + 1 } Phase.resetting
  else
    updateStatus aw Phase.failed

/-- `getPodStatus`: count the workload's pods by phase (a pod in the
`Unknown` phase falls through the Go `switch` and is not counted);
`expected` comes from the pod-count collaborator. -/
def getPodStatus (pods : List PodPhase) (expected : Int) : PodStatusSummary :=
  { expected := expected
    pending := Int.ofNat (pods.countP (fun q => decide (q = PodPhase.pending)))
    running := Int.ofNat (pods.countP (fun q => decide (q = PodPhase.running)))
    succeeded := Int.ofNat (pods.countP (fun q => decide (q = PodPhase.succeeded)))
    failed := Int.ofNat (pods.countP (fun q => decide (q = PodPhase.failed))) }

/-- The loop body of `getComponentStatus` over the componentStatus records:
a successful Get counts as deployed; not-found marks that component's own
`Unhealthy` condition and does not count; any other error aborts. Returns the
updated records and the deployed count. -/
def getComponentStatusAux (fetch : Nat → Except StoreErr Unit) (now : Int) :
    Nat → List ComponentStatus → Except StoreErr (List ComponentStatus × Int)
  | _, [] => Except.ok ([], 0)
  | i, cs :: rest =>
    match fetch i with
    | Except.ok _ =>
      match getComponentStatusAux fetch now (i + 1) rest with
      | Except.ok (rest', d) => Except.ok (cs :: rest', d + 1)
      | Except.error e => Except.error e
    | Except.error StoreErr.notFound =>
      let cs' := { cs with
        conditions := setCond cs.conditions CondType.unhealthy true "ComponentNotFound" "" now }
      match getComponentStatusAux fetch now (i + 1) rest with
      | Except.ok (rest', d) => Except.ok (cs' :: rest', d)
      | Except.error e => Except.error e
    | Except.error StoreErr.transient => Except.error StoreErr.transient

/-- `getComponentStatus`: `expected` is the number of componentStatus
records; `deployed` the number of successful Gets. -/
def getComponentStatus (fetch : Nat → Except StoreErr Unit) (now : Int)
    (csl : List ComponentStatus) :
    Except StoreErr (List ComponentStatus × ComponentStatusSummary) :=
  match getComponentStatusAux fetch now 0 csl with
  | Except.ok (csl', d) => Except.ok (csl', ⟨Int.ofNat csl.length, d⟩)
  | Except.error e => Except.error e

/-- Modelled from the spec: `awstatus.EnsureComponentStatusInitialized` (the
`awstatus` package is not among the provided sources). Per spec sections 3
and 4.1 it creates one componentStatus record per declared component, once
(the count is fixed at initialization). -/
def initComponentStatus (aw : AppWrapper) : AppWrapper :=
  if aw.componentStatus.length = aw.componentCount then aw
  else { aw with componentStatus := List.replicate aw.componentCount ⟨"", "", "", []⟩ }

/-- The message `"%v pods pending; %v pods running; %v pods succeeded"`. -/
def podDetailsMsg (ps : PodStatusSummary) : String :=
  let p0 := ps.pending
  let r0 := ps.running
  let s0 := ps.succeeded
  s!"{p0} pods pending; {r0} pods running; {s0} pods succeeded"

/-- The grace period applicable when not enough pods are ready: warmup when
every expected pod has at least been admitted, admission otherwise. -/
def notReadyGrace (cfg : FaultToleranceConfig) (pd : String → Option Int)
    (aw : AppWrapper) (ps : PodStatusSummary) : Int :=
  if ps.pending + ps.running + ps.succeeded ≥ ps.expected then
    warmupGraceDuration cfg pd aw
  else
    admissionGraceDuration cfg pd aw

/-- The tail of the deletion handler: clear `QuotaReserved` if set, then
remove the finalizer and return success. -/
def finishDeletion (env : Env) (aw : AppWrapper) : AppWrapper × ReconcileResult :=
  let aw :=
    if isCondTrue aw.conditions CondType.quotaReserved then
      withCond aw CondType.quotaReserved false
        (phaseName Phase.terminating) "No resources deployed" env.now
    else aw
  let aw := { aw with finalizers := removeFinalizer aw.finalizers }
  (aw, ReconcileResult.done)

/-- The deletion path of `Reconcile` (non-zero deletion timestamp): with the
finalizer present, delete children while `ResourcesDeployed` is true,
requeueing after 5s while any remain (setting phase `Terminating` for UX),
then clear `ResourcesDeployed`, clear `QuotaReserved` and drop the finalizer. -/
def reconcileDeletion (env : Env) (aw : AppWrapper) : AppWrapper × ReconcileResult :=
  if containsFinalizer aw then
    if isCondTrue aw.conditions CondType.resourcesDeployed then
      if !env.allComponentsGone then
        (if aw.phase = Phase.terminating then aw
         else { aw with phase := Phase.terminating },
         ReconcileResult.requeueAfter fiveSeconds)
      else
        finishDeletion env (withCond aw CondType.resourcesDeployed false
          (phaseName Phase.terminating) "Resources successfully deleted" env.now)
    else finishDeletion env aw
  else (aw, ReconcileResult.done)

/-- The `Empty` arm: inject the finalizer, initialize componentStatus, go to
`Suspended`. -/
def reconcileEmpty (aw : AppWrapper) : AppWrapper × ReconcileResult :=
  let aw :=
    if containsFinalizer aw then aw
    else { aw with finalizers := aw.finalizers ++ [appWrapperFinalizer] }
  let aw := initComponentStatus aw
  updateStatus aw Phase.suspended

/-- The `Suspended` arm: remain suspended, or begin deployment by recording
`QuotaReserved`, `ResourcesDeployed`, `PodsReady=false`, `Unhealthy=false`. -/
def reconcileSuspended (env : Env) (aw : AppWrapper) : AppWrapper × ReconcileResult :=
  if aw.suspend then (aw, ReconcileResult.done)
  else
    let aw := withCond aw CondType.quotaReserved true
      (phaseName Phase.resuming) "Suspend is false" env.now
    let aw := withCond aw CondType.resourcesDeployed true
      (phaseName Phase.resuming) "Suspend is false" env.now
    let aw := withCond aw CondType.podsReady false
      (phaseName Phase.resuming) "Suspend is false" env.now
    let aw := withCond aw CondType.unhealthy false
      (phaseName Phase.resuming) "Suspend is false" env.now
    updateStatus aw Phase.resuming

/-- The `Resuming` arm: abort to `Suspending` on suspend; otherwise create
components, routing a fatal error to `Failed`, a non-fatal one through
`resetOrFail`, and success to `Running`. -/
def reconcileResuming (cfg : FaultToleranceConfig) (pi : String → Option Int)
    (env : Env) (aw : AppWrapper) : AppWrapper × ReconcileResult :=
  if aw.suspend then updateStatus aw Phase.suspending
  else
    match env.createOutcome with
    | CreateOutcome.err fatal m =>
      let aw := withCond aw CondType.unhealthy true
        "CreateFailed" (s!"error creating components: {m}") env.now
      if fatal then updateStatus aw Phase.failed else resetOrFail cfg pi aw
    | CreateOutcome.ok => updateStatus aw Phase.running

/-- The `Running` arm. -/
def reconcileRunning (cfg : FaultToleranceConfig) (pd pi : String → Option Int)
    (env : Env) (aw : AppWrapper) : AppWrapper × ReconcileResult :=
  if aw.suspend then updateStatus aw Phase.suspending
  else
    match getComponentStatus env.componentFetch env.now aw.componentStatus with
    | Except.error e => (aw, ReconcileResult.error e)
    | Except.ok (newCS, comp) =>
      let aw := { aw with componentStatus := newCS }
      if comp.deployed ≠ comp.expected then
        let d := comp.deployed
        let e := comp.expected
        let aw := withCond aw CondType.unhealthy true "MissingComponent"
          (s!"Only found {d} deployed components, but was expecting {e}") env.now
        updateStatus aw Phase.failed
      else
        match env.podList with
        | Except.error e => (aw, ReconcileResult.error e)
        | Except.ok pods =>
          let ps := getPodStatus pods env.expectedPodCount
          if ps.succeeded ≥ ps.expected ∧ ps.pending + ps.running + ps.failed = 0 then
            let n := ps.succeeded
            let msg := s!"{n} pods succeeded and no running, pending, or failed pods"
            let aw := withCond aw CondType.quotaReserved false
              (phaseName Phase.succeeded) msg env.now
            let aw := withCond aw CondType.resourcesDeployed true
              (phaseName Phase.succeeded) msg env.now
            updateStatus aw Phase.succeeded
          else if ps.failed > 0 then
            let aw := withCond aw CondType.unhealthy true "FoundFailedPods" "" env.now
            let whenDetected := lastTransition aw.conditions CondType.unhealthy
            let gracePeriod := failureGraceDuration cfg pd aw
            let deadline := whenDetected + gracePeriod
            if env.now < deadline then
              (aw, ReconcileResult.requeueAfter (deadline - env.now))
            else resetOrFail cfg pi aw
          else
            let aw := clearCondition aw CondType.unhealthy "FoundNoFailedPods" "" env.now
            if ps.running + ps.succeeded ≥ ps.expected then
              let r0 := ps.running
              let s0 := ps.succeeded
              let aw := withCond aw CondType.podsReady true
                "SufficientPodsReady" (s!"{r0} pods running; {s0} pods succeeded") env.now
              (aw, ReconcileResult.requeueAfter minute)
            else
              let aw := clearCondition aw CondType.podsReady "InsufficientPodsReady"
                (podDetailsMsg ps) env.now
              let whenDeployed := lastTransition aw.conditions CondType.resourcesDeployed
              let graceDuration := notReadyGrace cfg pd aw ps
              if env.now < whenDeployed + graceDuration then
                (aw, ReconcileResult.requeueAfter fiveSeconds)
              else
                let aw := withCond aw CondType.unhealthy true
                  "InsufficientPodsReady" (podDetailsMsg ps) env.now
                resetOrFail cfg pi aw

/-- The tail of the `Suspending` arm after any needed undeploy: clear
`QuotaReserved`, `PodsReady`, `Unhealthy`, go to `Suspended`. -/
def suspendingTail (env : Env) (aw : AppWrapper) : AppWrapper × ReconcileResult :=
  let aw := withCond aw CondType.quotaReserved false
    (phaseName Phase.suspended) "Suspend is true" env.now
  let aw := clearCondition aw CondType.podsReady (phaseName Phase.suspended) "" env.now
  let aw := clearCondition aw CondType.unhealthy (phaseName Phase.suspended) "" env.now
  updateStatus aw Phase.suspended

/-- The `Suspending` arm. -/
def reconcileSuspending (env : Env) (aw : AppWrapper) : AppWrapper × ReconcileResult :=
  if isCondTrue aw.conditions CondType.resourcesDeployed then
    if !env.allComponentsGone then (aw, ReconcileResult.requeueAfter fiveSeconds)
    else
      suspendingTail env (withCond aw CondType.resourcesDeployed false
        (phaseName Phase.suspended) "Suspend is true" env.now)
  else suspendingTail env aw

/-- The pause-then-resume tail of the `Resetting` arm. -/
def resettingTail (cfg : FaultToleranceConfig) (pd : String → Option Int)
    (env : Env) (aw : AppWrapper) : AppWrapper × ReconcileResult :=
  let whenReset := lastTransition aw.conditions CondType.unhealthy
  let pauseDuration := retryPauseDuration cfg pd aw
  let deadline := whenReset + pauseDuration
  if env.now < deadline then (aw, ReconcileResult.requeueAfter (deadline - env.now))
  else
    let aw := withCond aw CondType.resourcesDeployed true
      (phaseName Phase.resuming) "Reset complete; resuming" env.now
    updateStatus aw Phase.resuming

/-- The `Resetting` arm. -/
def reconcileResetting (cfg : FaultToleranceConfig) (pd : String → Option Int)
    (env : Env) (aw : AppWrapper) : AppWrapper × ReconcileResult :=
  if aw.suspend then updateStatus aw Phase.suspending
  else
    let aw := clearCondition aw CondType.podsReady (phaseName Phase.resetting) "" env.now
    if isCondTrue aw.conditions CondType.resourcesDeployed then
      if !env.allComponentsGone then (aw, ReconcileResult.requeueAfter fiveSeconds)
      else
        resettingTail cfg pd env (withCond aw CondType.resourcesDeployed false
          (phaseName Phase.resetting) "Resources deleted for resetting AppWrapper" env.now)
    else resettingTail cfg pd env aw

/-- The tail of the `Failed` arm: clear `QuotaReserved` and commit. -/
def failedTail (env : Env) (aw : AppWrapper) : AppWrapper × ReconcileResult :=
  let aw := withCond aw CondType.quotaReserved false
    (phaseName Phase.failed) "No resources deployed" env.now
  (aw, ReconcileResult.done)

/-- The undeploy step of the `Failed` arm. -/
def failedMid (env : Env) (aw : AppWrapper) (deletionDelay : Int) :
    AppWrapper × ReconcileResult :=
  if isCondTrue aw.conditions CondType.resourcesDeployed then
    if !env.allComponentsGone then (aw, ReconcileResult.requeueAfter fiveSeconds)
    else
      let msg :=
        if deletionDelay > 0 ∧ aw.suspend = true then
          "Kueue forced resource deletion by suspending AppWrapper"
        else "Resources deleted for failed AppWrapper"
      failedTail env (withCond aw CondType.resourcesDeployed false
        (phaseName Phase.failed) msg env.now)
  else failedTail env aw

/-- The `Failed` arm: optionally pause deletion for debugging, then delete
children and clear the durable conditions. -/
def reconcileFailed (cfg : FaultToleranceConfig) (pd : String → Option Int)
    (env : Env) (aw : AppWrapper) : AppWrapper × ReconcileResult :=
  let deletionDelay := deletionOnFailureGraceDuration cfg pd aw
  if deletionDelay > 0 ∧ aw.suspend = false then
    let aw := withCond aw CondType.deletingResources false
      "DeletionPaused" (s!"{deletionOnFailureKey} has value {deletionDelay}") env.now
    let whenDelayed := lastTransition aw.conditions CondType.deletingResources
    let deadline := whenDelayed + deletionDelay
    if env.now < deadline then (aw, ReconcileResult.requeueAfter (deadline - env.now))
    else failedMid env aw deletionDelay
  else failedMid env aw deletionDelay

/-- The `Succeeded` arm: hold resources until the success TTL expires, then
delete children and clear `ResourcesDeployed`. -/
def reconcileSucceeded (cfg : FaultToleranceConfig) (pd : String → Option Int)
    (env : Env) (aw : AppWrapper) : AppWrapper × ReconcileResult :=
  if isCondTrue aw.conditions CondType.resourcesDeployed then
    let deletionDelay := timeToLiveAfterSucceededDuration cfg pd aw
    let whenSucceeded := lastTransition aw.conditions CondType.resourcesDeployed
    let deadline := whenSucceeded + deletionDelay
    if env.now < deadline then (aw, ReconcileResult.requeueAfter (deadline - env.now))
    else if !env.allComponentsGone then (aw, ReconcileResult.requeueAfter fiveSeconds)
    else
      let aw := withCond aw CondType.resourcesDeployed false (phaseName Phase.succeeded)
        (s!"Time to live after success of {deletionDelay} expired") env.now
      (aw, ReconcileResult.done)
  else (aw, ReconcileResult.done)

/-- The body of `Reconcile` once the AppWrapper has been fetched: deletion
handling first, then the phase switch (the Go switch has no `Terminating`
case, so that phase falls through to `return ctrl.Result{}, nil`). -/
def reconcileLive (cfg : FaultToleranceConfig) (pd pi : String → Option Int)
    (env : Env) (aw : AppWrapper) : AppWrapper × ReconcileResult :=
  if aw.deletionTimestampSet then reconcileDeletion env aw
  else
    match aw.phase with
    | Phase.empty => reconcileEmpty aw
    | Phase.suspended => reconcileSuspended env aw
    | Phase.resuming => reconcileResuming cfg pi env aw
    | Phase.running => reconcileRunning cfg pd pi env aw
    | Phase.suspending => reconcileSuspending env aw
    | Phase.resetting => reconcileResetting cfg pd env aw
    | Phase.failed => reconcileFailed cfg pd env aw
    | Phase.succeeded => reconcileSucceeded cfg pd env aw
    | Phase.terminating => (aw, ReconcileResult.done)

/-- `Reconcile` including the initial fetch: the Go code returns
`ctrl.Result{}, nil` for ANY error from the initial Get (not only
not-found). The first component of the result is the resulting in-memory
AppWrapper, when one was fetched. -/
def reconcile (cfg : FaultToleranceConfig) (pd pi : String → Option Int)
    (env : Env) (fetch : Except StoreErr AppWrapper) :
    Option AppWrapper × ReconcileResult :=
  match fetch with
  | Except.error _ => (none, ReconcileResult.done)
  | Except.ok aw =>
    let out := reconcileLive cfg pd pi env aw
    (some out.1, out.2)

/-! Helper lemmas about the condition-ledger primitives. -/

/-- Setting a condition makes its boolean status exactly the set value. -/
theorem isCondTrue_setCond_self (conds : List Cond) (t : CondType) (st : Bool)
    (r m : String) (now : Int) :
    isCondTrue (setCond conds t st r m now) t = st := by
  induction conds with
  | nil => simp [setCond, isCondTrue, findCond]
  | cons c rest ih =>
    by_cases h : c.type = t
    · simp [setCond, h, isCondTrue, findCond]
    · simpa [setCond, h, isCondTrue, findCond] using ih

/-- Setting a condition returns a record carrying exactly the set fields. -/
theorem findCond_setCond_self (conds : List Cond) (t : CondType) (st : Bool)
    (r m : String) (now : Int) :
    ∃ ltt, findCond (setCond conds t st r m now) t = some ⟨t, st, r, m, ltt⟩ := by
  induction conds with
  | nil => exact ⟨now, by simp [setCond, findCond]⟩
  | cons c rest ih =>
    by_cases h : c.type = t
    · exact ⟨if c.status = st then c.lastTransitionTime else now, by simp [setCond, findCond, h]⟩
    · simpa [setCond, findCond, h] using ih

/-- Setting one condition type leaves every other type untouched. -/
theorem findCond_setCond_other (conds : List Cond) (t t' : CondType) (st : Bool)
    (r m : String) (now : Int) (h : t' ≠ t) :
    findCond (setCond conds t st r m now) t' = findCond conds t' := by
  have htt : ¬t = t' := fun hh => h hh.symm
  induction conds with
  | nil => simp [setCond, findCond, htt]
  | cons c rest ih =>
    by_cases hc : c.type = t
    · have hct : ¬c.type = t' := by rw [hc]; exact htt
      simp [setCond, findCond, hc, hct, htt]
    · by_cases hc' : c.type = t'
      · simp [setCond, findCond, hc, hc', h]
      · simpa [setCond, findCond, hc, hc'] using ih

/-- `isCondTrue` version of `findCond_setCond_other`. -/
theorem isCondTrue_setCond_other (conds : List Cond) (t t' : CondType) (st : Bool)
    (r m : String) (now : Int) (h : t' ≠ t) :
    isCondTrue (setCond conds t st r m now) t' = isCondTrue conds t' := by
  unfold isCondTrue
  rw [findCond_setCond_other conds t t' st r m now h]

/-- `lastTransition` version of `findCond_setCond_other`. -/
theorem lastTransition_setCond_other (conds : List Cond) (t t' : CondType) (st : Bool)
    (r m : String) (now : Int) (h : t' ≠ t) :
    lastTransition (setCond conds t st r m now) t' = lastTransition conds t' := by
  unfold lastTransition
  rw [findCond_setCond_other conds t t' st r m now h]

/-- `clearCondition` never changes the phase. -/
theorem clearCondition_phase (aw : AppWrapper) (t : CondType) (r m : String) (now : Int) :
    (clearCondition aw t r m now).phase = aw.phase := by
  unfold clearCondition; split <;> rfl

/-- `clearCondition` never changes the annotations. -/
theorem clearCondition_anns (aw : AppWrapper) (t : CondType) (r m : String) (now : Int) :
    (clearCondition aw t r m now).anns = aw.anns := by
  unfold clearCondition; split <;> rfl

/-- `clearCondition` never changes the retry counter. -/
theorem clearCondition_retries (aw : AppWrapper) (t : CondType) (r m : String) (now : Int) :
    (clearCondition aw t r m now).retries = aw.retries := by
  unfold clearCondition; split <;> rfl

/-- `clearCondition` on one type leaves every other type untouched. -/
theorem findCond_clearCondition_other (aw : AppWrapper) (t t' : CondType)
    (r m : String) (now : Int) (h : t' ≠ t) :
    findCond (clearCondition aw t r m now).conditions t' = findCond aw.conditions t' := by
  unfold clearCondition; split
  · exact findCond_setCond_other aw.conditions t t' false r m now h
  · rfl

/-- `isCondTrue` version of `findCond_clearCondition_other`. -/
theorem isCondTrue_clearCondition_other (aw : AppWrapper) (t t' : CondType)
    (r m : String) (now : Int) (h : t' ≠ t) :
    isCondTrue (clearCondition aw t r m now).conditions t' = isCondTrue aw.conditions t' := by
  unfold isCondTrue
  rw [findCond_clearCondition_other aw t t' r m now h]

/-- `lastTransition` version of `findCond_clearCondition_other`. -/
theorem lastTransition_clearCondition_other (aw : AppWrapper) (t t' : CondType)
    (r m : String) (now : Int) (h : t' ≠ t) :
    lastTransition (clearCondition aw t r m now).conditions t' =
      lastTransition aw.conditions t' := by
  unfold lastTransition
  rw [findCond_clearCondition_other aw t t' r m now h]

/-- Removing the finalizer really removes it. -/
theorem finalizer_not_mem_removeFinalizer (l : List String) :
    appWrapperFinalizer ∉ removeFinalizer l := by
  simp [removeFinalizer]

/-- Sample fault-tolerance configuration used by concrete witnesses. -/
def cfgEx : FaultToleranceConfig :=
  { admissionGracePeriod := 60 * second
    warmupGracePeriod := 300 * second
    failureGracePeriod := 60 * second
    retryPausePeriod := 90 * second
    forcefulDeletionGracePeriod := 600 * second
    successTTL := 600 * second
    gracePeriodMaximum := 86400 * second
    retryLimit := 3 }

/-- A parse function on which every string is unparsable. -/
def parseNone : String → Option Int := fun _ => none

/-- Sample running workload used by concrete witnesses. -/
def awEx : AppWrapper :=
  { suspend := false
    anns := []
    deletionTimestampSet := false
    finalizers := [appWrapperFinalizer]
    phase := Phase.running
    conditions := []
    componentStatus := [⟨"PodGroup", "v1", "job", []⟩]
    retries := 0
    componentCount := 1 }

/-- Sample healthy environment used by concrete witnesses. -/
def envEx : Env :=
  { now := 0
    podList := Except.ok []
    expectedPodCount := 1
    componentFetch := fun _ => Except.ok ()
    allComponentsGone := true
    createOutcome := CreateOutcome.ok }

/-- C1: the reset-or-fail gate. When `status.retries` is strictly below the
resolved retry limit, it increments retries by exactly one and sets phase
`Resetting`; otherwise it sets phase `Failed` with retries unchanged. Hence
whenever the gate's outcome is not `Failed`, retries stays at most the
resolved (configured or annotation-overridden) limit. -/
theorem resetOrFail_bounded_retry_gate (cfg : FaultToleranceConfig)
    (pi : String → Option Int) (aw : AppWrapper) :
    (aw.retries < retryLimit cfg pi aw →
      (resetOrFail cfg pi aw).1.retries = aw.retries + 1 ∧
      (resetOrFail cfg pi aw).1.phase = Phase.resetting) ∧
    (retryLimit cfg pi aw ≤ aw.retries →
      (resetOrFail cfg pi aw).1.phase = Phase.failed ∧
      (resetOrFail cfg pi aw).1.retries = aw.retries) ∧
    ((resetOrFail cfg pi aw).1.phase ≠ Phase.failed →
      (resetOrFail cfg pi aw).1.retries ≤ retryLimit cfg pi aw) := by
  by_cases h : aw.retries < retryLimit cfg pi aw
  · refine ⟨fun _ => ⟨?_, ?_⟩, fun hle => absurd h (by omega), fun _ => ?_⟩
    · simp [resetOrFail, updateStatus, h]
    · simp [resetOrFail, updateStatus, h]
    · simp only [resetOrFail, updateStatus, if_pos h]
      omega
  · refine ⟨fun hlt => absurd hlt h, fun _ => ⟨?_, ?_⟩, fun hne => ?_⟩
    · simp [resetOrFail, updateStatus, h]
    · simp [resetOrFail, updateStatus, h]
    · exact absurd (by simp [resetOrFail, updateStatus, h]) hne

/-- Witness for the reset-or-fail gate at a concrete workload with
retries 0 and configured limit 3. -/
theorem resetOrFail_bounded_retry_gate_witness :
    (resetOrFail cfgEx parseNone awEx).1.retries = awEx.retries + 1 ∧
    (resetOrFail cfgEx parseNone awEx).1.phase = Phase.resetting :=
  (resetOrFail_bounded_retry_gate cfgEx parseNone awEx).1 (by decide)

/-- C9 counterexample: a transient store error (conflict/unavailability) on
the initial fetch of the workload is swallowed — the reconciliation returns
plain success (`ctrl.Result{}, nil`), not an error for the dispatcher to
retry with backoff, refuting the claim that only not-found is treated as
success. -/
theorem fetch_error_counterexample :
    reconcile cfgEx parseNone parseNone envEx (Except.error StoreErr.transient) =
      (none, ReconcileResult.done) ∧
    ReconcileResult.done ≠ ReconcileResult.error StoreErr.transient := by
  exact ⟨rfl, by decide⟩

/-- C9 amended: every error from the initial fetch — not-found or transient —
is treated alike as a no-op success: no error is propagated to the
dispatcher, nothing is requeued and no state is produced. (Transient errors
from later reads, e.g. the per-component Gets, are still propagated, see the
`Except.error` arms of `reconcileRunning`.) -/
theorem fetch_error_swallowed (cfg : FaultToleranceConfig) (pd pi : String → Option Int)
    (env : Env) (e : StoreErr) :
    reconcile cfg pd pi env (Except.error e) = (none, ReconcileResult.done) := rfl

/-- The four counted pod phases plus the uncounted `Unknown` partition the
pod list. -/
theorem podPhase_count_partition (pods : List PodPhase) :
    pods.countP (fun q => decide (q = PodPhase.pending)) +
      pods.countP (fun q => decide (q = PodPhase.running)) +
      pods.countP (fun q => decide (q = PodPhase.succeeded)) +
      pods.countP (fun q => decide (q = PodPhase.failed)) +
      pods.countP (fun q => decide (q = PodPhase.unknown)) = pods.length := by
  induction pods with
  | nil => rfl
  | cons p rest ih => cases p <;> simp [List.countP_cons] <;> omega

/-- Sample environment whose pod list contains a succeeded pod and an
`Unknown`-phase pod. -/
def envC10 : Env :=
  { envEx with podList := Except.ok [PodPhase.succeeded, PodPhase.unknown] }

/-- C10: `getPodStatus` counts a pod only in the phases Pending, Running,
Succeeded, Failed — an `Unknown`-phase pod contributes to no counter, so the
four counters sum to the number of matching pods minus the `Unknown` ones
(hence can be strictly smaller), and a `Running` workload whose pods are one
`Succeeded` plus one `Unknown` (expected count 1) passes the success test and
transitions to `Succeeded` while the `Unknown` pod still exists. -/
theorem pod_status_ignores_unknown :
    (∀ (pods : List PodPhase) (expected : Int),
      (getPodStatus pods expected).pending + (getPodStatus pods expected).running +
          (getPodStatus pods expected).succeeded + (getPodStatus pods expected).failed +
          Int.ofNat (pods.countP (fun q => decide (q = PodPhase.unknown))) =
        Int.ofNat pods.length ∧
      (getPodStatus pods expected).pending + (getPodStatus pods expected).running +
          (getPodStatus pods expected).succeeded + (getPodStatus pods expected).failed ≤
        Int.ofNat pods.length) ∧
    (getPodStatus [PodPhase.succeeded, PodPhase.unknown] 1).pending +
        (getPodStatus [PodPhase.succeeded, PodPhase.unknown] 1).running +
        (getPodStatus [PodPhase.succeeded, PodPhase.unknown] 1).succeeded +
        (getPodStatus [PodPhase.succeeded, PodPhase.unknown] 1).failed <
      Int.ofNat ([PodPhase.succeeded, PodPhase.unknown] : List PodPhase).length ∧
    (reconcileLive cfgEx parseNone parseNone envC10 awEx).1.phase = Phase.succeeded := by
  refine ⟨fun pods expected => ?_, by decide, by decide⟩
  have h := podPhase_count_partition pods
  simp only [getPodStatus, Int.ofNat_eq_natCast]
  omega

/-- The clamp really lands in `[0, M]` whenever `0 ≤ M`. -/
theorem limitDuration_bounds (cfg : FaultToleranceConfig) (d : Int)
    (hM : 0 ≤ cfg.gracePeriodMaximum) :
    0 ≤ limitDuration cfg d ∧ limitDuration cfg d ≤ cfg.gracePeriodMaximum := by
  unfold limitDuration
  split
  · omega
  · split <;> omega

/-- The shared resolver always returns a clamped value. -/
theorem resolveGraceDuration_bounds (cfg : FaultToleranceConfig)
    (pd : String → Option Int) (aw : AppWrapper) (key : String) (dflt : Int)
    (hM : 0 ≤ cfg.gracePeriodMaximum) :
    0 ≤ resolveGraceDuration cfg pd aw key dflt ∧
      resolveGraceDuration cfg pd aw key dflt ≤ cfg.gracePeriodMaximum := by
  unfold resolveGraceDuration
  split
  · split
    · exact limitDuration_bounds cfg _ hM
    · exact limitDuration_bounds cfg dflt hM
  · exact limitDuration_bounds cfg dflt hM

/-- The shared resolver falls back to the clamped default when the override
is absent or unparsable. -/
theorem resolveGraceDuration_default (cfg : FaultToleranceConfig)
    (pd : String → Option Int) (aw : AppWrapper) (key : String) (dflt : Int)
    (h : lookupAnn aw.anns key = none ∨
      ∃ s, lookupAnn aw.anns key = some s ∧ pd s = none) :
    resolveGraceDuration cfg pd aw key dflt = limitDuration cfg dflt := by
  unfold resolveGraceDuration
  rcases h with h | ⟨s, hs, hp⟩
  · rw [h]
  · rw [hs]
    dsimp only
    rw [hp]

/-- C4: for every override annotation string (under an arbitrary duration
parser) and every configured maximum M ≥ 0, each of the admission, warmup,
failure, retry-pause and forceful-deletion grace durations D satisfies
0 ≤ D ≤ M, and an absent or unparsable override yields the configured default
for that duration, itself clamped. The resolvers are total functions, so
resolution never fails the reconciliation. -/
theorem grace_durations_clamped (cfg : FaultToleranceConfig)
    (pd : String → Option Int) (aw : AppWrapper) (hM : 0 ≤ cfg.gracePeriodMaximum) :
    (0 ≤ admissionGraceDuration cfg pd aw ∧
      admissionGraceDuration cfg pd aw ≤ cfg.gracePeriodMaximum ∧
      ((lookupAnn aw.anns admissionGracePeriodKey = none ∨
          ∃ s, lookupAnn aw.anns admissionGracePeriodKey = some s ∧ pd s = none) →
        admissionGraceDuration cfg pd aw = limitDuration cfg cfg.admissionGracePeriod)) ∧
    (0 ≤ warmupGraceDuration cfg pd aw ∧
      warmupGraceDuration cfg pd aw ≤ cfg.gracePeriodMaximum ∧
      ((lookupAnn aw.anns warmupGracePeriodKey = none ∨
          ∃ s, lookupAnn aw.anns warmupGracePeriodKey = some s ∧ pd s = none) →
        warmupGraceDuration cfg pd aw = limitDuration cfg cfg.warmupGracePeriod)) ∧
    (0 ≤ failureGraceDuration cfg pd aw ∧
      failureGraceDuration cfg pd aw ≤ cfg.gracePeriodMaximum ∧
      ((lookupAnn aw.anns failureGracePeriodKey = none ∨
          ∃ s, lookupAnn aw.anns failureGracePeriodKey = some s ∧ pd s = none) →
        failureGraceDuration cfg pd aw = limitDuration cfg cfg.failureGracePeriod)) ∧
    (0 ≤ retryPauseDuration cfg pd aw ∧
      retryPauseDuration cfg pd aw ≤ cfg.gracePeriodMaximum ∧
      ((lookupAnn aw.anns retryPausePeriodKey = none ∨
          ∃ s, lookupAnn aw.anns retryPausePeriodKey = some s ∧ pd s = none) →
        retryPauseDuration cfg pd aw = limitDuration cfg cfg.retryPausePeriod)) ∧
    (0 ≤ forcefulDeletionGraceDuration cfg pd aw ∧
      forcefulDeletionGraceDuration cfg pd aw ≤ cfg.gracePeriodMaximum ∧
      ((lookupAnn aw.anns forcefulDeletionKey = none ∨
          ∃ s, lookupAnn aw.anns forcefulDeletionKey = some s ∧ pd s = none) →
        forcefulDeletionGraceDuration cfg pd aw =
          limitDuration cfg cfg.forcefulDeletionGracePeriod)) := by
  refine ⟨?_, ?_, ?_, ?_, ?_⟩ <;>
    exact ⟨(resolveGraceDuration_bounds cfg pd aw _ _ hM).1,
      (resolveGraceDuration_bounds cfg pd aw _ _ hM).2,
      fun h => resolveGraceDuration_default cfg pd aw _ _ h⟩

/-- Witness for the grace clamp at a concrete configuration and workload:
maximum 86400s ≥ 0, no annotations, so the admission grace resolves to the
clamped configured default. -/
theorem grace_durations_clamped_witness :
    0 ≤ admissionGraceDuration cfgEx parseNone awEx ∧
    admissionGraceDuration cfgEx parseNone awEx =
      limitDuration cfgEx cfgEx.admissionGracePeriod :=
  ⟨(grace_durations_clamped cfgEx parseNone awEx (by decide)).1.1,
   (grace_durations_clamped cfgEx parseNone awEx (by decide)).1.2.2 (Or.inl rfl)⟩

/-- Workload carrying a success-TTL override annotation. -/
def awTTL : AppWrapper := { awEx with anns := [(successTTLKey, "5s")] }

/-- Configuration whose success TTL default is 5 seconds. -/
def cfgTTL : FaultToleranceConfig := { cfgEx with successTTL := 5 * second }

/-- A parse function sending every string to 5 seconds. -/
def parseFive : String → Option Int := fun _ => some (5 * second)

/-- C5 counterexample: with configured default T = 5s and an override parsing
to exactly d = T = 5s, the resolved success TTL equals d even though
0 < d < T is false — the claimed "resolved TTL equals d if and only if
0 < d < T" fails in its only-if direction at d = T. -/
theorem successTTL_iff_counterexample :
    timeToLiveAfterSucceededDuration cfgTTL parseFive awTTL = 5 * second ∧
    ¬(0 < 5 * second ∧ (5 * second : Int) < cfgTTL.successTTL) := by
  exact ⟨rfl, by decide⟩

/-- C5 amended: a parseable success-TTL override d is honored exactly when
0 < d < T (default T); otherwise — d ≤ 0, d ≥ T, absent, or unparsable — the
resolved TTL is the default T. (When d = T the two coincide, so "resolved
equals d" also holds there even though 0 < d < T fails; the biconditional in
the original claim holds for every parseable d ≠ T.) -/
theorem successTTL_asymmetric_clamp (cfg : FaultToleranceConfig)
    (pd : String → Option Int) (aw : AppWrapper) :
    (∀ s d, lookupAnn aw.anns successTTLKey = some s → pd s = some d →
      timeToLiveAfterSucceededDuration cfg pd aw =
        if 0 < d ∧ d < cfg.successTTL then d else cfg.successTTL) ∧
    (lookupAnn aw.anns successTTLKey = none →
      timeToLiveAfterSucceededDuration cfg pd aw = cfg.successTTL) ∧
    (∀ s, lookupAnn aw.anns successTTLKey = some s → pd s = none →
      timeToLiveAfterSucceededDuration cfg pd aw = cfg.successTTL) := by
  unfold timeToLiveAfterSucceededDuration
  refine ⟨fun s d hs hp => ?_, fun hn => ?_, fun s hs hp => ?_⟩
  · rw [hs]
    dsimp only
    rw [hp]
  · rw [hn]
  · rw [hs]
    dsimp only
    rw [hp]

/-- Witness for the amended success-TTL rule: no annotation present, so the
resolved TTL is the configured default. -/
theorem successTTL_asymmetric_clamp_witness :
    timeToLiveAfterSucceededDuration cfgEx parseNone awEx = cfgEx.successTTL :=
  (successTTL_asymmetric_clamp cfgEx parseNone awEx).2.1 rfl

/-- Configuration whose success-TTL default (600s) exceeds the configured
maximum (60s). -/
def cfgSmallMax : FaultToleranceConfig := { cfgEx with gracePeriodMaximum := 60 * second }

/-- C6 counterexample: with the success-TTL override absent, the resolved
success TTL is the configured default unclamped (600s), not the default
clamped to the configured maximum (60s) — so not all seven named durations
fall back to a clamped configured default. (The failure-deletion-delay also
deviates: its absent-override fallback is a hardcoded 0, there being no
configured default for it.) -/
theorem default_fallback_counterexample :
    timeToLiveAfterSucceededDuration cfgSmallMax parseNone awEx = 600 * second ∧
    limitDuration cfgSmallMax cfgSmallMax.successTTL = 60 * second ∧
    (600 * second : Int) ≠ 60 * second := by
  refine ⟨rfl, rfl, by decide⟩

/-- The shared resolver falls back to the clamped default when no string
parses. -/
theorem resolveGraceDuration_parse_fail (cfg : FaultToleranceConfig)
    (pd : String → Option Int) (aw : AppWrapper) (key : String) (dflt : Int)
    (hpd : ∀ v, pd v = none) :
    resolveGraceDuration cfg pd aw key dflt = limitDuration cfg dflt := by
  refine resolveGraceDuration_default cfg pd aw key dflt ?_
  cases hl : lookupAnn aw.anns key with
  | none => exact Or.inl rfl
  | some s => exact Or.inr ⟨s, rfl, hpd s⟩

/-- C6 amended: when the per-resource override is absent (no annotations) or
unparsable (every string fails to parse), the five uniform durations —
admission, warmup, failure, retry-pause, forceful-deletion — resolve to the
configured default clamped to the maximum; the failure-deletion-delay
resolves to a hardcoded 0 (it has no configured default); and the success TTL
resolves to the configured default without clamping. -/
theorem duration_default_fallback (cfg : FaultToleranceConfig)
    (pd : String → Option Int) (aw : AppWrapper)
    (h : (∀ v, pd v = none) ∨ aw.anns = []) :
    admissionGraceDuration cfg pd aw = limitDuration cfg cfg.admissionGracePeriod ∧
    warmupGraceDuration cfg pd aw = limitDuration cfg cfg.warmupGracePeriod ∧
    failureGraceDuration cfg pd aw = limitDuration cfg cfg.failureGracePeriod ∧
    retryPauseDuration cfg pd aw = limitDuration cfg cfg.retryPausePeriod ∧
    forcefulDeletionGraceDuration cfg pd aw =
      limitDuration cfg cfg.forcefulDeletionGracePeriod ∧
    deletionOnFailureGraceDuration cfg pd aw = 0 ∧
    timeToLiveAfterSucceededDuration cfg pd aw = cfg.successTTL := by
  rcases h with hpd | hann
  · refine ⟨resolveGraceDuration_parse_fail cfg pd aw _ _ hpd,
      resolveGraceDuration_parse_fail cfg pd aw _ _ hpd,
      resolveGraceDuration_parse_fail cfg pd aw _ _ hpd,
      resolveGraceDuration_parse_fail cfg pd aw _ _ hpd,
      resolveGraceDuration_parse_fail cfg pd aw _ _ hpd, ?_, ?_⟩
    · unfold deletionOnFailureGraceDuration
      cases hl : lookupAnn aw.anns deletionOnFailureKey with
      | none => rfl
      | some s =>
        dsimp only
        rw [hpd s]
    · unfold timeToLiveAfterSucceededDuration
      cases hl : lookupAnn aw.anns successTTLKey with
      | none => rfl
      | some s =>
        dsimp only
        rw [hpd s]
  · unfold admissionGraceDuration warmupGraceDuration failureGraceDuration
      retryPauseDuration forcefulDeletionGraceDuration resolveGraceDuration
      deletionOnFailureGraceDuration timeToLiveAfterSucceededDuration
    rw [hann]
    exact ⟨rfl, rfl, rfl, rfl, rfl, rfl, rfl⟩

/-- Witness for the amended default-fallback rule at a workload with no
annotations. -/
theorem duration_default_fallback_witness :
    deletionOnFailureGraceDuration cfgEx parseNone awEx = 0 ∧
    timeToLiveAfterSucceededDuration cfgEx parseNone awEx = cfgEx.successTTL :=
  ⟨(duration_default_fallback cfgEx parseNone awEx (Or.inr rfl)).2.2.2.2.2.1,
   (duration_default_fallback cfgEx parseNone awEx (Or.inr rfl)).2.2.2.2.2.2⟩

/-- `finishDeletion` always removes the finalizer and reports success. -/
theorem finishDeletion_finalizers (env : Env) (aw : AppWrapper) :
    (finishDeletion env aw).1.finalizers = removeFinalizer aw.finalizers := by
  unfold finishDeletion
  split <;> rfl

/-- `finishDeletion` returns plain success. -/
theorem finishDeletion_result (env : Env) (aw : AppWrapper) :
    (finishDeletion env aw).2 = ReconcileResult.done := by
  unfold finishDeletion
  split <;> rfl

/-- `finishDeletion` does not touch the `ResourcesDeployed` condition. -/
theorem finishDeletion_rd (env : Env) (aw : AppWrapper) :
    isCondTrue (finishDeletion env aw).1.conditions CondType.resourcesDeployed =
      isCondTrue aw.conditions CondType.resourcesDeployed := by
  unfold finishDeletion
  split
  · exact isCondTrue_setCond_other aw.conditions CondType.quotaReserved
      CondType.resourcesDeployed false (phaseName Phase.terminating)
      "No resources deployed" env.now (by decide)
  · rfl

/-- After `finishDeletion`, `QuotaReserved` is not true. -/
theorem finishDeletion_qr (env : Env) (aw : AppWrapper) :
    isCondTrue (finishDeletion env aw).1.conditions CondType.quotaReserved = false := by
  unfold finishDeletion
  split
  · exact isCondTrue_setCond_self aw.conditions CondType.quotaReserved false
      (phaseName Phase.terminating) "No resources deployed" env.now
  · rename_i h
    simpa using h

/-- C2: the deletion protocol. For a workload marked for deletion that still
carries the finalizer: when `ResourcesDeployed` is true and children remain,
the reconciliation requeues after 5 seconds and keeps the finalizer; and
whenever the invocation does remove the finalizer, the children had been
confirmed deleted (when any were deployed) and the resulting conditions have
`ResourcesDeployed` and `QuotaReserved` false. -/
theorem deletion_protocol (cfg : FaultToleranceConfig) (pd pi : String → Option Int)
    (env : Env) (aw : AppWrapper)
    (hdel : aw.deletionTimestampSet = true)
    (hfin : containsFinalizer aw = true) :
    (isCondTrue aw.conditions CondType.resourcesDeployed = true →
      env.allComponentsGone = false →
      (reconcileLive cfg pd pi env aw).2 = ReconcileResult.requeueAfter fiveSeconds ∧
      containsFinalizer (reconcileLive cfg pd pi env aw).1 = true) ∧
    (containsFinalizer (reconcileLive cfg pd pi env aw).1 = false →
      (isCondTrue aw.conditions CondType.resourcesDeployed = true →
        env.allComponentsGone = true) ∧
      isCondTrue (reconcileLive cfg pd pi env aw).1.conditions
        CondType.resourcesDeployed = false ∧
      isCondTrue (reconcileLive cfg pd pi env aw).1.conditions
        CondType.quotaReserved = false) := by
  have hlive : reconcileLive cfg pd pi env aw = reconcileDeletion env aw := by
    simp [reconcileLive, hdel]
  by_cases hrd : isCondTrue aw.conditions CondType.resourcesDeployed
  · by_cases hg : env.allComponentsGone
    · have hg2 : env.allComponentsGone = true := hg
      have hr : reconcileLive cfg pd pi env aw =
          finishDeletion env (withCond aw CondType.resourcesDeployed false
            (phaseName Phase.terminating) "Resources successfully deleted" env.now) := by
        rw [hlive]
        unfold reconcileDeletion
        rw [hfin, hrd, hg2]
        simp
      constructor
      · intro _ hfalse
        rw [hg2] at hfalse
        cases hfalse
      · intro _
        refine ⟨fun _ => hg2, ?_, ?_⟩
        · rw [hr, finishDeletion_rd]
          exact isCondTrue_setCond_self aw.conditions CondType.resourcesDeployed false
            (phaseName Phase.terminating) "Resources successfully deleted" env.now
        · rw [hr]
          exact finishDeletion_qr env _
    · have hg2 : env.allComponentsGone = false := by simpa using hg
      have hfeq : (if aw.phase = Phase.terminating then aw
          else { aw with phase := Phase.terminating }).finalizers = aw.finalizers := by
        split <;> rfl
      have hr : reconcileLive cfg pd pi env aw =
          (if aw.phase = Phase.terminating then aw
           else { aw with phase := Phase.terminating },
           ReconcileResult.requeueAfter fiveSeconds) := by
        rw [hlive]
        unfold reconcileDeletion
        rw [hfin, hrd, hg2]
        simp
      have hcf : containsFinalizer (reconcileLive cfg pd pi env aw).1 = true := by
        rw [hr]
        unfold containsFinalizer
        rw [hfeq]
        exact hfin
      constructor
      · intro _ _
        exact ⟨by rw [hr], hcf⟩
      · intro habs
        rw [habs] at hcf
        cases hcf
  · have hrd2 : isCondTrue aw.conditions CondType.resourcesDeployed = false := by
      simpa using hrd
    have hr : reconcileLive cfg pd pi env aw = finishDeletion env aw := by
      rw [hlive]
      unfold reconcileDeletion
      rw [hfin, hrd2]
      simp
    constructor
    · intro htrue _
      rw [hrd2] at htrue
      cases htrue
    · intro _
      refine ⟨fun htrue => ?_, ?_, ?_⟩
      · rw [hrd2] at htrue
        cases htrue
      · rw [hr, finishDeletion_rd]
        exact hrd2
      · rw [hr]
        exact finishDeletion_qr env aw

/-- A deleted workload with deployed resources and lingering children, used
as a concrete witness for the deletion protocol. -/
def awDel : AppWrapper :=
  { awEx with
    deletionTimestampSet := true
    conditions := [⟨CondType.resourcesDeployed, true, "Resuming", "Suspend is false", 0⟩] }

/-- An environment in which some child is still terminating. -/
def envBusy : Env := { envEx with allComponentsGone := false }

/-- Witness for the deletion protocol: children linger, so the invocation
requeues after 5s and keeps the finalizer. -/
theorem deletion_protocol_witness :
    (reconcileLive cfgEx parseNone parseNone envBusy awDel).2 =
      ReconcileResult.requeueAfter fiveSeconds ∧
    containsFinalizer (reconcileLive cfgEx parseNone parseNone envBusy awDel).1 = true :=
  (deletion_protocol cfgEx parseNone parseNone envBusy awDel rfl (by decide)).1
    (by decide) rfl

/-- A fresh (phase-unset) workload with suspend=false. -/
def awEmpty : AppWrapper :=
  { suspend := false
    anns := []
    deletionTimestampSet := false
    finalizers := []
    phase := Phase.empty
    conditions := []
    componentStatus := []
    retries := 0
    componentCount := 1 }

/-- C3 counterexample: from the initial phase with suspend=false and a fixed
environment (no observation even consulted on this path), one invocation ends
in `Suspended` but two successive invocations end in `Resuming` — invoking
the reconciliation twice produces a different resulting phase than invoking
it once. -/
theorem reconcile_twice_counterexample :
    (reconcileLive cfgEx parseNone parseNone envEx
        (reconcileLive cfgEx parseNone parseNone envEx awEmpty).1).1.phase ≠
      (reconcileLive cfgEx parseNone parseNone envEx awEmpty).1.phase := by
  decide

/-- C3 amended: re-invocation is idempotent only in quiescent configurations.
With no deletion marker, a workload that is `Suspended` with suspend=true, or
`Succeeded` with `ResourcesDeployed` no longer true, is left completely
unchanged by an invocation, so a second invocation produces the same phase
and the same condition set as one; in progressing configurations a second
invocation may advance the phase further (e.g. Empty to Suspended to
Resuming). -/
theorem reconcile_idempotent_quiescent (cfg : FaultToleranceConfig)
    (pd pi : String → Option Int) (env : Env) (aw : AppWrapper)
    (hdel : aw.deletionTimestampSet = false)
    (h : (aw.phase = Phase.suspended ∧ aw.suspend = true) ∨
      (aw.phase = Phase.succeeded ∧
        isCondTrue aw.conditions CondType.resourcesDeployed = false)) :
    (reconcileLive cfg pd pi env (reconcileLive cfg pd pi env aw).1).1.phase =
      (reconcileLive cfg pd pi env aw).1.phase ∧
    (reconcileLive cfg pd pi env (reconcileLive cfg pd pi env aw).1).1.conditions =
      (reconcileLive cfg pd pi env aw).1.conditions := by
  have hfix : reconcileLive cfg pd pi env aw = (aw, ReconcileResult.done) := by
    rcases h with ⟨hp, hs⟩ | ⟨hp, hs⟩
    · simp [reconcileLive, hdel, hp, reconcileSuspended, hs]
    · simp [reconcileLive, hdel, hp, reconcileSucceeded, hs]
  rw [hfix]
  exact ⟨by simp [hfix], by simp [hfix]⟩

/-- A quiescent workload: suspended and asked to stay suspended. -/
def awQuiescent : AppWrapper := { awEmpty with phase := Phase.suspended, suspend := true }

/-- Witness for quiescent idempotence at a concrete suspended workload. -/
theorem reconcile_idempotent_quiescent_witness :
    (reconcileLive cfgEx parseNone parseNone envEx
        (reconcileLive cfgEx parseNone parseNone envEx awQuiescent).1).1.phase =
      (reconcileLive cfgEx parseNone parseNone envEx awQuiescent).1.phase :=
  (reconcile_idempotent_quiescent cfgEx parseNone parseNone envEx awQuiescent rfl
    (Or.inl ⟨rfl, rfl⟩)).1

/-- C7: a workload in `Running` with suspend=false whose component aggregation
reports (without store error) fewer deployed components than expected is
marked Unhealthy=true with reason `MissingComponent` and transitions directly
to `Failed` — no retry is consumed (`status.retries` unchanged) and no grace
period or requeue intervenes (plain done result). -/
theorem missing_component_fails_immediately (cfg : FaultToleranceConfig)
    (pd pi : String → Option Int) (env : Env) (aw : AppWrapper)
    (newCS : List ComponentStatus) (comp : ComponentStatusSummary)
    (hdel : aw.deletionTimestampSet = false)
    (hphase : aw.phase = Phase.running)
    (hsus : aw.suspend = false)
    (hc : getComponentStatus env.componentFetch env.now aw.componentStatus =
      Except.ok (newCS, comp))
    (hne : comp.deployed ≠ comp.expected) :
    (reconcileLive cfg pd pi env aw).1.phase = Phase.failed ∧
    (reconcileLive cfg pd pi env aw).1.retries = aw.retries ∧
    (reconcileLive cfg pd pi env aw).2 = ReconcileResult.done ∧
    ∃ c, findCond (reconcileLive cfg pd pi env aw).1.conditions CondType.unhealthy = some c ∧
      c.status = true ∧ c.reason = "MissingComponent" := by
  have hlive : reconcileLive cfg pd pi env aw = reconcileRunning cfg pd pi env aw := by
    simp [reconcileLive, hdel, hphase]
  refine ⟨?_, ?_, ?_, ?_⟩ <;> rw [hlive] <;> unfold reconcileRunning <;>
    simp only [hsus, Bool.false_eq_true, if_false, hc] <;> rw [if_pos hne]
  · rfl
  · rfl
  · rfl
  · obtain ⟨ltt, hf⟩ := findCond_setCond_self aw.conditions CondType.unhealthy true
      "MissingComponent" _ env.now
    exact ⟨_, hf, rfl, rfl⟩

/-- An environment in which every component Get reports not-found. -/
def envMissing : Env := { envEx with componentFetch := fun _ => Except.error StoreErr.notFound }

/-- The componentStatus record of `awEx` as updated by a not-found Get. -/
def csMissing : ComponentStatus :=
  ⟨"PodGroup", "v1", "job", [⟨CondType.unhealthy, true, "ComponentNotFound", "", 0⟩]⟩

/-- Witness for the missing-component rule: one expected component, its Get
reports not-found, so the workload fails immediately with retries intact. -/
theorem missing_component_fails_immediately_witness :
    (reconcileLive cfgEx parseNone parseNone envMissing awEx).1.phase = Phase.failed ∧
    (reconcileLive cfgEx parseNone parseNone envMissing awEx).1.retries = awEx.retries :=
  ⟨(missing_component_fails_immediately cfgEx parseNone parseNone envMissing awEx
      [csMissing] ⟨1, 0⟩ rfl rfl rfl rfl (by decide)).1,
   (missing_component_fails_immediately cfgEx parseNone parseNone envMissing awEx
      [csMissing] ⟨1, 0⟩ rfl rfl rfl rfl (by decide)).2.1⟩

/-- The pod counters are counts, hence nonnegative. -/
theorem getPodStatus_nonneg (pods : List PodPhase) (expected : Int) :
    0 ≤ (getPodStatus pods expected).pending ∧
    0 ≤ (getPodStatus pods expected).running ∧
    0 ≤ (getPodStatus pods expected).succeeded ∧
    0 ≤ (getPodStatus pods expected).failed := by
  simp only [getPodStatus]
  exact ⟨Int.ofNat_nonneg _, Int.ofNat_nonneg _, Int.ofNat_nonneg _, Int.ofNat_nonneg _⟩

/-- The not-ready grace selection depends on the workload only through its
annotations. -/
theorem notReadyGrace_anns (cfg : FaultToleranceConfig) (pd : String → Option Int)
    (aw aw' : AppWrapper) (ps : PodStatusSummary) (h : aw'.anns = aw.anns) :
    notReadyGrace cfg pd aw' ps = notReadyGrace cfg pd aw ps := by
  unfold notReadyGrace warmupGraceDuration admissionGraceDuration resolveGraceDuration
  rw [h]

/-- `clearCondition` on a currently-true condition is exactly a set-to-false. -/
theorem clearCondition_true (aw : AppWrapper) (t : CondType) (r m : String) (now : Int)
    (h : isCondTrue aw.conditions t = true) :
    clearCondition aw t r m now =
      { aw with conditions := setCond aw.conditions t false r m now } := by
  unfold clearCondition
  rw [h]
  simp

/-- Configuration with a 100-second admission grace period. -/
def cfgGrace : FaultToleranceConfig := { cfgEx with admissionGracePeriod := 100 * second }

/-- Running workload whose resources were recorded deployed at time 0. -/
def awPartial : AppWrapper :=
  { awEx with
    conditions := [⟨CondType.resourcesDeployed, true, "Resuming", "Suspend is false", 0⟩] }

/-- Environment at t = 10s with one running pod out of two expected. -/
def envPartial : Env :=
  { envEx with
    podList := Except.ok [PodPhase.running]
    expectedPodCount := 2
    now := 10 * second }

/-- C8 counterexample: `Running`, suspend=false, no failed pods, one of two
expected pods ready, resources deployed at t=0, admission grace 100s, now
t=10s — the grace deadline is 90s away, but the reconciliation requeues after
the fixed 5 seconds, refuting the claim that the requeue delay equals the
time remaining until the grace-period deadline. -/
theorem not_ready_requeue_counterexample :
    (reconcileLive cfgGrace parseNone parseNone envPartial awPartial).2 =
      ReconcileResult.requeueAfter fiveSeconds ∧
    fiveSeconds ≠ 0 + 100 * second - 10 * second := by
  refine ⟨rfl, by decide⟩

/-- C8 amended: for a `Running` workload with suspend=false, all components
deployed, no failed pods and fewer ready (running+succeeded) pods than
expected, while the applicable grace period (warmup or admission, per
`notReadyGrace`) has not elapsed since `ResourcesDeployed` last transitioned:
the phase remains `Running`, the reconciliation requeues after a fixed
5 seconds (not the time remaining until the deadline), and when `PodsReady`
was previously true it is set to false with reason `InsufficientPodsReady`
and the updated pod-details message (a `PodsReady` condition that is already
false is left as it was). -/
theorem not_ready_within_grace_requeues (cfg : FaultToleranceConfig)
    (pd pi : String → Option Int) (env : Env) (aw : AppWrapper)
    (newCS : List ComponentStatus) (comp : ComponentStatusSummary) (pods : List PodPhase)
    (hdel : aw.deletionTimestampSet = false)
    (hphase : aw.phase = Phase.running)
    (hsus : aw.suspend = false)
    (hc : getComponentStatus env.componentFetch env.now aw.componentStatus =
      Except.ok (newCS, comp))
    (heq : comp.deployed = comp.expected)
    (hpods : env.podList = Except.ok pods)
    (hfail : (getPodStatus pods env.expectedPodCount).failed = 0)
    (hready : (getPodStatus pods env.expectedPodCount).running +
        (getPodStatus pods env.expectedPodCount).succeeded <
      (getPodStatus pods env.expectedPodCount).expected)
    (hgrace : env.now < lastTransition aw.conditions CondType.resourcesDeployed +
      notReadyGrace cfg pd aw (getPodStatus pods env.expectedPodCount)) :
    (reconcileLive cfg pd pi env aw).2 = ReconcileResult.requeueAfter fiveSeconds ∧
    (reconcileLive cfg pd pi env aw).1.phase = Phase.running ∧
    (isCondTrue aw.conditions CondType.podsReady = true →
      ∃ c, findCond (reconcileLive cfg pd pi env aw).1.conditions CondType.podsReady =
          some c ∧ c.status = false ∧ c.reason = "InsufficientPodsReady" ∧
          c.message = podDetailsMsg (getPodStatus pods env.expectedPodCount)) := by
  have hlive : reconcileLive cfg pd pi env aw = reconcileRunning cfg pd pi env aw := by
    simp [reconcileLive, hdel, hphase]
  have hnonneg := getPodStatus_nonneg pods env.expectedPodCount
  have hne' : ¬comp.deployed ≠ comp.expected := fun hx => hx heq
  have hnsucc : ¬((getPodStatus pods env.expectedPodCount).succeeded ≥
      (getPodStatus pods env.expectedPodCount).expected ∧
      (getPodStatus pods env.expectedPodCount).pending +
        (getPodStatus pods env.expectedPodCount).running +
        (getPodStatus pods env.expectedPodCount).failed = 0) := by
    rintro ⟨h1, -⟩
    have h2 := hnonneg.2.1
    omega
  have hnfail : ¬((getPodStatus pods env.expectedPodCount).failed > 0) := by omega
  have hnready : ¬((getPodStatus pods env.expectedPodCount).running +
      (getPodStatus pods env.expectedPodCount).succeeded ≥
      (getPodStatus pods env.expectedPodCount).expected) := by omega
  have hg : env.now <
      lastTransition (clearCondition (clearCondition { aw with componentStatus := newCS }
          CondType.unhealthy "FoundNoFailedPods" "" env.now) CondType.podsReady
          "InsufficientPodsReady" (podDetailsMsg (getPodStatus pods env.expectedPodCount))
          env.now).conditions CondType.resourcesDeployed +
      notReadyGrace cfg pd (clearCondition (clearCondition { aw with componentStatus := newCS }
          CondType.unhealthy "FoundNoFailedPods" "" env.now) CondType.podsReady
          "InsufficientPodsReady" (podDetailsMsg (getPodStatus pods env.expectedPodCount))
          env.now) (getPodStatus pods env.expectedPodCount) := by
    rw [lastTransition_clearCondition_other _ CondType.podsReady
          CondType.resourcesDeployed _ _ _ (by decide),
        lastTransition_clearCondition_other _ CondType.unhealthy
          CondType.resourcesDeployed _ _ _ (by decide),
        notReadyGrace_anns cfg pd aw _ _ (by rw [clearCondition_anns, clearCondition_anns])]
    exact hgrace
  have hmain : reconcileLive cfg pd pi env aw =
      (clearCondition
        (clearCondition { aw with componentStatus := newCS } CondType.unhealthy
          "FoundNoFailedPods" "" env.now)
        CondType.podsReady "InsufficientPodsReady"
        (podDetailsMsg (getPodStatus pods env.expectedPodCount)) env.now,
       ReconcileResult.requeueAfter fiveSeconds) := by
    have hsusne : ¬(aw.suspend = true) := by rw [hsus]; exact Bool.false_ne_true
    rw [hlive]
    unfold reconcileRunning
    rw [if_neg hsusne]
    simp only [hc, hpods]
    rw [if_neg hne', if_neg hnsucc, if_neg hnfail, if_neg hnready]
    split
    · rfl
    · rename_i hcon
      exact absurd hg hcon
  refine ⟨by rw [hmain], ?_, ?_⟩
  · rw [hmain]
    show (clearCondition (clearCondition { aw with componentStatus := newCS }
        CondType.unhealthy "FoundNoFailedPods" "" env.now) CondType.podsReady
        "InsufficientPodsReady" (podDetailsMsg (getPodStatus pods env.expectedPodCount))
        env.now).phase = Phase.running
    rw [clearCondition_phase, clearCondition_phase]
    exact hphase
  · intro hpr
    rw [hmain]
    have hpr1 : isCondTrue (clearCondition { aw with componentStatus := newCS }
        CondType.unhealthy "FoundNoFailedPods" "" env.now).conditions
        CondType.podsReady = true := by
      rw [isCondTrue_clearCondition_other _ CondType.unhealthy CondType.podsReady
        _ _ _ (by decide)]
      exact hpr
    rw [clearCondition_true _ _ _ _ _ hpr1]
    obtain ⟨ltt, hf⟩ := findCond_setCond_self
      (clearCondition { aw with componentStatus := newCS } CondType.unhealthy
        "FoundNoFailedPods" "" env.now).conditions
      CondType.podsReady false "InsufficientPodsReady"
      (podDetailsMsg (getPodStatus pods env.expectedPodCount)) env.now
    exact ⟨_, hf, rfl, rfl, rfl⟩

/-- Witness for the amended not-ready rule at the concrete 1-of-2-ready
workload within its admission grace window. -/
theorem not_ready_within_grace_requeues_witness :
    (reconcileLive cfgGrace parseNone parseNone envPartial awPartial).2 =
      ReconcileResult.requeueAfter fiveSeconds ∧
    (reconcileLive cfgGrace parseNone parseNone envPartial awPartial).1.phase =
      Phase.running :=
  ⟨(not_ready_within_grace_requeues cfgGrace parseNone parseNone envPartial awPartial
      [⟨"PodGroup", "v1", "job", []⟩] ⟨1, 1⟩ [PodPhase.running] rfl rfl rfl rfl rfl rfl
      (by decide) (by decide) (by decide)).1,
   (not_ready_within_grace_requeues cfgGrace parseNone parseNone envPartial awPartial
      [⟨"PodGroup", "v1", "job", []⟩] ⟨1, 1⟩ [PodPhase.running] rfl rfl rfl rfl rfl rfl
      (by decide) (by decide) (by decide)).2.1⟩

end AppWrapperModel
